import Mathlib

/-!
Shallow embedding of the stable-swap program (files `src/fees.rs` and
`src/processor/swap.rs`) together with models, taken from the design
specification, of the arithmetic and curve helpers (`math.rs`, `curve.rs`,
`pool_converter.rs`, `processor/checks.rs`) that the two embedded files call
but that are not part of the sources at hand.

Machine integers are embedded as `Nat`; overflow checks of the Rust
`checked_*` operations and of the 64-bit narrowing are explicit
`% 2 ^ 64`-style bounds.  Fallible Rust code returning `Option`/`Result`
becomes `Option`/`Except`.
-/

namespace StableSwapSpec

/-- 2 to the 64th power, the number of values of a 64-bit word. -/
def U64_SIZE : Nat := 18446744073709551616

/-- 2 to the 8th power, the number of values of an 8-bit word. -/
def U8_SIZE : Nat := 256

/-- Modelled from the spec: WideMath `scaledMulDiv` (the function
`math::mul_div` of the absent file `math.rs`).  Computes
`floor(value * numerator / denominator)` in wide intermediate precision;
returns none when the denominator is zero or when the quotient does not fit
in 64 bits. -/
def mul_div (value numerator denominator : Nat) : Option Nat :=
  if denominator = 0 then none
  else if value * numerator / denominator < U64_SIZE then
    some (value * numerator / denominator)
  else none

/-- Modelled from the spec: WideMath `scaledMulDivImbalanced` (the function
`math::mul_div_imbalanced` of the absent file `math.rs`), which per the spec
"behaves identically" to `scaledMulDiv` and is the variant used by the four
fee computations. -/
def mul_div_imbalanced (value numerator denominator : Nat) : Option Nat :=
  if denominator = 0 then none
  else if value * numerator / denominator < U64_SIZE then
    some (value * numerator / denominator)
  else none

/-- Rust `u64::checked_add`: none on 64-bit overflow. -/
def checked_add_u64 (a b : Nat) : Option Nat :=
  if a + b < U64_SIZE then some (a + b) else none

/-- Rust `checked_sub` on unsigned integers: none when the subtraction
would go negative. -/
def checked_sub (a b : Nat) : Option Nat :=
  if b ≤ a then some (a - b) else none

/-- Rust `u8::checked_mul`: none on 8-bit overflow.  Used by
`Fees::normalized_trade_fee`, whose `n_coins` parameter is a `u8`. -/
def checked_mul_u8 (a b : Nat) : Option Nat :=
  if a * b < U8_SIZE then some (a * b) else none

/-- The `Fees` struct of `fees.rs`: eight unsigned 64-bit fields forming
four numerator/denominator pairs. -/
structure Fees where
  admin_trade_fee_numerator : Nat
  admin_trade_fee_denominator : Nat
  admin_withdraw_fee_numerator : Nat
  admin_withdraw_fee_denominator : Nat
  trade_fee_numerator : Nat
  trade_fee_denominator : Nat
  withdraw_fee_numerator : Nat
  withdraw_fee_denominator : Nat
deriving DecidableEq, Repr

/-- All eight fields of a `Fees` value fit in 64 bits (they are `u64` in
the source). -/
def Fees.wf (f : Fees) : Prop :=
  f.admin_trade_fee_numerator < U64_SIZE ∧
  f.admin_trade_fee_denominator < U64_SIZE ∧
  f.admin_withdraw_fee_numerator < U64_SIZE ∧
  f.admin_withdraw_fee_denominator < U64_SIZE ∧
  f.trade_fee_numerator < U64_SIZE ∧
  f.trade_fee_denominator < U64_SIZE ∧
  f.withdraw_fee_numerator < U64_SIZE ∧
  f.withdraw_fee_denominator < U64_SIZE

instance (f : Fees) : Decidable f.wf := by
  unfold Fees.wf; infer_instance

/-- `Fees::admin_trade_fee` of `fees.rs`. -/
def Fees.admin_trade_fee (f : Fees) (fee_amount : Nat) : Option Nat :=
  mul_div_imbalanced fee_amount f.admin_trade_fee_numerator
    f.admin_trade_fee_denominator

/-- `Fees::admin_withdraw_fee` of `fees.rs`. -/
def Fees.admin_withdraw_fee (f : Fees) (fee_amount : Nat) : Option Nat :=
  mul_div_imbalanced fee_amount f.admin_withdraw_fee_numerator
    f.admin_withdraw_fee_denominator

/-- `Fees::trade_fee` of `fees.rs`. -/
def Fees.trade_fee (f : Fees) (trade_amount : Nat) : Option Nat :=
  mul_div_imbalanced trade_amount f.trade_fee_numerator
    f.trade_fee_denominator

/-- `Fees::withdraw_fee` of `fees.rs`. -/
def Fees.withdraw_fee (f : Fees) (withdraw_amount : Nat) : Option Nat :=
  mul_div_imbalanced withdraw_amount f.withdraw_fee_numerator
    f.withdraw_fee_denominator

/-- `Fees::normalized_trade_fee` of `fees.rs`.  `n_coins` is a `u8` in the
source, so the subtraction and the multiplication by 4 are 8-bit checked
operations. -/
def Fees.normalized_trade_fee (f : Fees) (n_coins : Nat) (amount : Nat) :
    Option Nat := do
  let s ← checked_sub n_coins 1
  let m ← checked_mul_u8 s 4
  let adjusted_trade_fee_numerator ← mul_div f.trade_fee_numerator n_coins m
  mul_div amount adjusted_trade_fee_numerator f.trade_fee_denominator

/-- Rust `u64::to_le_bytes`: the eight little-endian bytes of a 64-bit
value, each byte a `Nat` below 256. -/
def toLeBytes8 (n : Nat) : List Nat :=
  [n % 256, n / 256 % 256, n / 65536 % 256, n / 16777216 % 256,
   n / 4294967296 % 256, n / 1099511627776 % 256,
   n / 281474976710656 % 256, n / 72057594037927936 % 256]

/-- Rust `u64::from_le_bytes` generalized to a byte list: little-endian
base-256 value of the list. -/
def fromLeBytes (bs : List Nat) : Nat :=
  bs.foldr (fun b acc => b + 256 * acc) 0

/-- `Fees::pack_into_slice` of `fees.rs` (`impl Pack for Fees`): the eight
64-bit fields, little-endian, in declaration order, 64 bytes in all. -/
def Fees.pack_into_slice (f : Fees) : List Nat :=
  toLeBytes8 f.admin_trade_fee_numerator ++
  toLeBytes8 f.admin_trade_fee_denominator ++
  toLeBytes8 f.admin_withdraw_fee_numerator ++
  toLeBytes8 f.admin_withdraw_fee_denominator ++
  toLeBytes8 f.trade_fee_numerator ++
  toLeBytes8 f.trade_fee_denominator ++
  toLeBytes8 f.withdraw_fee_numerator ++
  toLeBytes8 f.withdraw_fee_denominator

/-- `Fees::unpack_from_slice` of `fees.rs`: splits the first 64 bytes into
eight 8-byte little-endian fields in declaration order.  The Rust
`array_ref` macro panics when fewer than 64 bytes are supplied; the
embedding returns none in that case. -/
def Fees.unpack_from_slice (input : List Nat) : Option Fees :=
  if 64 ≤ input.length then
    let r1 := input
    let r2 := r1.drop 8
    let r3 := r2.drop 8
    let r4 := r3.drop 8
    let r5 := r4.drop 8
    let r6 := r5.drop 8
    let r7 := r6.drop 8
    let r8 := r7.drop 8
    some
      { admin_trade_fee_numerator := fromLeBytes (r1.take 8)
        admin_trade_fee_denominator := fromLeBytes (r2.take 8)
        admin_withdraw_fee_numerator := fromLeBytes (r3.take 8)
        admin_withdraw_fee_denominator := fromLeBytes (r4.take 8)
        trade_fee_numerator := fromLeBytes (r5.take 8)
        trade_fee_denominator := fromLeBytes (r6.take 8)
        withdraw_fee_numerator := fromLeBytes (r7.take 8)
        withdraw_fee_denominator := fromLeBytes (r8.take 8) }
  else none

/-- The variants of `error::SwapError` that `processor/swap.rs` can raise
along the paths embedded here.  The several account-validation variants
(`InvalidProgramAddress`, `InvalidOwner`, `IncorrectMint`, ...) raised by
the collapsed key checks are represented by `AccountCheckFailed`. -/
inductive SwapError where
  | CalculationFailure
  | ExceededSlippage
  | IsPaused
  | InvalidInput
  | EmptySupply
  | EmptyPool
  | ConversionFailure
  | AccountCheckFailed
deriving DecidableEq, Repr

/-- A token-program side effect requested by the processor: the SPL-token
calls `token::transfer_as_user` / `token::transfer_as_swap`,
`token::mint_to` and `token::burn`, recorded in the order the source
issues them. -/
inductive Eff where
  | transfer (amount : Nat)
  | mintTo (amount : Nat)
  | burn (amount : Nat)
deriving DecidableEq, Repr

/-- The result of a processor run: the returned `ProgramResult` paired
with the list of token-program effects performed before returning. -/
abbrev ProcResult := Except SwapError Unit × List Eff

/-- Modelled from the spec: the `SwapResult` record of the absent file
`curve.rs` — amount swapped, admin fee taken, trade fee taken, and the two
new reserve balances implied by the operation. -/
structure SwapResult where
  new_source_amount : Nat
  new_destination_amount : Nat
  amount_swapped : Nat
  admin_fee : Nat
  fee : Nat
deriving DecidableEq, Repr

/-- The slice of the `SwapInfo` pool state (`state.rs`, absent) that the
embedded processor paths read: the pause flag and the fee schedule. -/
structure SwapInfo where
  is_paused : Bool
  fees : Fees
deriving DecidableEq, Repr

/-- The `ZERO_TS` sentinel of `curve.rs`: the zero timestamp meaning "no
ramp in effect". -/
def ZERO_TS : Int := 0

/-- The `StableSwap` invariant-computer state (`curve.rs`, absent from the
sources): initial and target amplification coefficients, the current
timestamp, and the two ramp checkpoints, exactly the five arguments of
`StableSwap::new` in the order `processor/swap.rs` passes them. -/
structure StableSwap where
  initial_amp_factor : Nat
  target_amp_factor : Nat
  current_ts : Int
  start_ramp_ts : Int
  stop_ramp_ts : Int
deriving DecidableEq, Repr

/-- `StableSwap::new` as called by `processor/swap.rs`. -/
def StableSwap.new (initial_amp_factor target_amp_factor : Nat)
    (current_ts start_ramp_ts stop_ramp_ts : Int) : StableSwap :=
  ⟨initial_amp_factor, target_amp_factor, current_ts, start_ramp_ts,
    stop_ramp_ts⟩

/-- Modelled from the spec: AmplificationRamp `effectiveCoefficient`
(`compute_amp_factor` of the absent `curve.rs`).  Returns the target
coefficient when the current time has reached the ramp stop or when no
ramp is configured (start equals stop); otherwise interpolates linearly
over elapsed time, in either direction, with floor division. -/
def StableSwap.compute_amp_factor (s : StableSwap) : Option Nat :=
  if s.stop_ramp_ts ≤ s.current_ts ∨ s.start_ramp_ts = s.stop_ramp_ts then
    some s.target_amp_factor
  else
    let elapsed : Nat := (s.current_ts - s.start_ramp_ts).toNat
    let duration : Nat := (s.stop_ramp_ts - s.start_ramp_ts).toNat
    if s.initial_amp_factor ≤ s.target_amp_factor then
      some (s.initial_amp_factor +
        (s.target_amp_factor - s.initial_amp_factor) * elapsed / duration)
    else
      some (s.initial_amp_factor -
        (s.initial_amp_factor - s.target_amp_factor) * elapsed / duration)

/-- Modelled from the spec: `compute_d` of the absent `curve.rs`
dispatches on the effective (ramp-interpolated) amplification coefficient
and then runs the Newton-Raphson solver on the two reserves.  The solver
core is kept abstract as the parameter `core`, a function of the effective
coefficient and the two reserves, since its closed-form update step is not
given by either the sources or the spec. -/
def StableSwap.compute_d (core : Nat → Nat → Nat → Option Nat)
    (s : StableSwap) (amount_a amount_b : Nat) : Option Nat :=
  (s.compute_amp_factor).bind fun amp => core amp amount_a amount_b

/-- `U256::try_to_u64` (`bn.rs`, absent): the value itself when it fits in
64 bits, a conversion failure otherwise. -/
def tryToU64 (n : Nat) : Option Nat :=
  if n < U64_SIZE then some n else none

/-- The numeric core of `process_initialize` of `processor/swap.rs`
(lines 96-284).  The amp-factor range test and the long prefix of
account/key validations are collapsed into the flags `amp_ok` and
`keys_ok`; `token_a_amount` and `token_b_amount` are the balances of the
two reserve accounts.  Mirrors the source order: amp range check, key
checks, empty-supply checks (B first, then A), then
`StableSwap::new(amp, amp, ZERO_TS, ZERO_TS, ZERO_TS)`, `compute_d`,
`try_to_u64`, and finally the single `token::mint_to` of the result. -/
def process_init (core : Nat → Nat → Nat → Option Nat)
    (amp_factor : Nat) (amp_ok keys_ok : Bool)
    (token_a_amount token_b_amount : Nat) : ProcResult :=
  if ¬ amp_ok then (Except.error SwapError.InvalidInput, [])
  else if ¬ keys_ok then (Except.error SwapError.AccountCheckFailed, [])
  else if token_b_amount = 0 then (Except.error SwapError.EmptySupply, [])
  else if token_a_amount = 0 then (Except.error SwapError.EmptySupply, [])
  else
    let invariant := StableSwap.new amp_factor amp_factor ZERO_TS ZERO_TS ZERO_TS
    match invariant.compute_d core token_a_amount token_b_amount with
    | none => (Except.error SwapError.CalculationFailure, [])
    | some mint_amount_u256 =>
      match tryToU64 mint_amount_u256 with
      | none => (Except.error SwapError.ConversionFailure, [])
      | some mint_amount => (Except.ok (), [Eff.mintTo mint_amount])

/-- `process_swap` of `processor/swap.rs` (lines 287-435).  The
source-equality check of the two swap reserve accounts (line 309) is the
flag `distinct_accounts`; the authority and reserve-matching checks
(lines 318-357) are collapsed into `keys_ok`; the `swap_to` quote of the
absent `curve.rs` is the parameter `quote`.  Mirrors the source order:
zero-amount no-op, distinctness check, pause check, key checks, quote
(none is `CalculationFailure`), slippage check, then the three transfers
(user to swap of `amount_in`, swap to user of `amount_swapped`, swap to
admin of `admin_fee`). -/
def process_swap (amount_in minimum_amount_out : Nat)
    (distinct_accounts : Bool) (info : SwapInfo) (keys_ok : Bool)
    (quote : Option SwapResult) : ProcResult :=
  if amount_in = 0 then (Except.ok (), [])
  else if ¬ distinct_accounts then (Except.error SwapError.InvalidInput, [])
  else if info.is_paused then (Except.error SwapError.IsPaused, [])
  else if ¬ keys_ok then (Except.error SwapError.AccountCheckFailed, [])
  else
    match quote with
    | none => (Except.error SwapError.CalculationFailure, [])
    | some result =>
      if result.amount_swapped < minimum_amount_out then
        (Except.error SwapError.ExceededSlippage, [])
      else
        (Except.ok (),
          [Eff.transfer amount_in, Eff.transfer result.amount_swapped,
           Eff.transfer result.admin_fee])

/-- `process_deposit` of `processor/swap.rs` (lines 438-547).  The
account/key validations (lines 466-481) are collapsed into `keys_ok`; the
`compute_mint_amount_for_deposit` quote of the absent `curve.rs` is the
parameter `mint_amount`.  Mirrors the source order: both-zero no-op, pause
check, key checks, quote (none is `CalculationFailure`), slippage check
against `min_mint_amount`, then the two transfers in and the LP mint. -/
def process_deposit (token_a_amount token_b_amount min_mint_amount : Nat)
    (info : SwapInfo) (keys_ok : Bool) (mint_amount : Option Nat) :
    ProcResult :=
  if token_a_amount = 0 ∧ token_b_amount = 0 then (Except.ok (), [])
  else if info.is_paused then (Except.error SwapError.IsPaused, [])
  else if ¬ keys_ok then (Except.error SwapError.AccountCheckFailed, [])
  else
    match mint_amount with
    | none => (Except.error SwapError.CalculationFailure, [])
    | some m =>
      if m < min_mint_amount then
        (Except.error SwapError.ExceededSlippage, [])
      else
        (Except.ok (),
          [Eff.transfer token_a_amount, Eff.transfer token_b_amount,
           Eff.mintTo m])

/-- Modelled from the spec: `check_can_withdraw_token` of the absent
`processor/checks.rs`.  Takes one per-asset withdrawal quote
(amount, fee, admin fee) from the `PoolTokenConverter`; a missing quote is
a calculation failure, an amount below the caller minimum is the distinct
slippage rejection. -/
def check_can_withdraw_token (quote : Option (Nat × Nat × Nat))
    (minimum : Nat) : Except SwapError (Nat × Nat × Nat) :=
  match quote with
  | none => Except.error SwapError.CalculationFailure
  | some (amount, fee, admin_fee) =>
    if amount < minimum then Except.error SwapError.ExceededSlippage
    else Except.ok (amount, fee, admin_fee)

set_option linter.unusedVariables false in
/-- `process_withdraw` of `processor/swap.rs` (lines 588-724).  The
account/key validations are collapsed into `keys_ok`; `pool_supply` is the
unpacked LP mint supply; `quote_a` and `quote_b` are the
`PoolTokenConverter::token_a_rate` / `token_b_rate` results of the absent
`pool_converter.rs`.  Mirrors the source order: zero-amount no-op, key
checks, empty-pool check, both `check_can_withdraw_token` checks, then the
four transfers (amount and admin fee for each asset) and the LP burn.
Note the source performs no pause check on this path: the unpacked `info`
(which carries the pause flag) is deliberately never consulted. -/
def process_withdraw
    (pool_token_amount minimum_token_a_amount minimum_token_b_amount : Nat)
    (info : SwapInfo) (keys_ok : Bool) (pool_supply : Nat)
    (quote_a quote_b : Option (Nat × Nat × Nat)) : ProcResult :=
  if pool_token_amount = 0 then (Except.ok (), [])
  else if ¬ keys_ok then (Except.error SwapError.AccountCheckFailed, [])
  else if pool_supply = 0 then (Except.error SwapError.EmptyPool, [])
  else
    match check_can_withdraw_token quote_a minimum_token_a_amount with
    | Except.error e => (Except.error e, [])
    | Except.ok (a_amount, _a_fee, a_admin_fee) =>
      match check_can_withdraw_token quote_b minimum_token_b_amount with
      | Except.error e => (Except.error e, [])
      | Except.ok (b_amount, _b_fee, b_admin_fee) =>
        (Except.ok (),
          [Eff.transfer a_amount, Eff.transfer a_admin_fee,
           Eff.transfer b_amount, Eff.transfer b_admin_fee,
           Eff.burn pool_token_amount])

/-- `process_withdraw_one` of `processor/swap.rs` (lines 727-907).  The
base/quote account equality check (line 751) is `distinct_accounts`; the
authority and reserve-matching checks are collapsed into `keys_ok`; the
`compute_withdraw_one` quote of the absent `curve.rs` is the parameter
`quote`, whose value `(dy, dy_fee)` is, per the spec model, the
fee-adjusted (net of the trade-fee portion) gross withdrawal amount
together with that trade-fee portion.  Mirrors the source order:
zero-amount no-op, distinctness check, pause check, key checks, quote,
flat withdraw fee on `dy`, checked subtraction, slippage check, the two
admin fee computations and checked addition, then the two transfers
(net amount and admin fee, both from the base reserve) and the LP burn. -/
def process_withdraw_one (pool_token_amount minimum_token_amount : Nat)
    (distinct_accounts : Bool) (info : SwapInfo) (keys_ok : Bool)
    (quote : Option (Nat × Nat)) : ProcResult :=
  if pool_token_amount = 0 then (Except.ok (), [])
  else if ¬ distinct_accounts then (Except.error SwapError.InvalidInput, [])
  else if info.is_paused then (Except.error SwapError.IsPaused, [])
  else if ¬ keys_ok then (Except.error SwapError.AccountCheckFailed, [])
  else
    match quote with
    | none => (Except.error SwapError.CalculationFailure, [])
    | some (dy, dy_fee) =>
      match info.fees.withdraw_fee dy with
      | none => (Except.error SwapError.CalculationFailure, [])
      | some wfee =>
        match checked_sub dy wfee with
        | none => (Except.error SwapError.CalculationFailure, [])
        | some token_amount =>
          if token_amount < minimum_token_amount then
            (Except.error SwapError.ExceededSlippage, [])
          else
            match info.fees.admin_trade_fee dy_fee with
            | none => (Except.error SwapError.CalculationFailure, [])
            | some admin_t_fee =>
              match info.fees.admin_withdraw_fee wfee with
              | none => (Except.error SwapError.CalculationFailure, [])
              | some admin_w_fee =>
                match checked_add_u64 admin_t_fee admin_w_fee with
                | none => (Except.error SwapError.CalculationFailure, [])
                | some admin_fee =>
                  (Except.ok (),
                    [Eff.transfer token_amount, Eff.transfer admin_fee,
                     Eff.burn pool_token_amount])

theorem toLeBytes8_length (n : Nat) : (toLeBytes8 n).length = 8 := rfl

theorem toLeBytes8_append_take (n : Nat) (r : List Nat) :
    (toLeBytes8 n ++ r).take 8 = toLeBytes8 n := rfl

theorem toLeBytes8_append_drop (n : Nat) (r : List Nat) :
    (toLeBytes8 n ++ r).drop 8 = r := rfl

theorem toLeBytes8_take (n : Nat) : (toLeBytes8 n).take 8 = toLeBytes8 n := rfl

theorem fromLeBytes_toLeBytes8 (n : Nat) (h : n < U64_SIZE) :
    fromLeBytes (toLeBytes8 n) = n := by
  simp only [fromLeBytes, toLeBytes8, List.foldr]
  simp only [U64_SIZE] at h
  omega

theorem toLeBytes8_mem_lt (n b : Nat) (hb : b ∈ toLeBytes8 n) : b < 256 := by
  simp only [toLeBytes8, List.mem_cons, List.not_mem_nil, or_false] at hb
  rcases hb with rfl | rfl | rfl | rfl | rfl | rfl | rfl | rfl <;> omega

/-- C1 counterexample: the claim asserts that for every fee schedule with a
nonzero trade-fee denominator and every `n_coins` at least 2,
`normalized_trade_fee` equals the floor-division formula
`floor(amount * floor(tradeNum * n / (4 * (n - 1))) / tradeDen)`.  At
`n_coins = 65` the 8-bit checked multiplication `(n_coins - 1) * 4`
overflows (256 does not fit in a `u8`) and the function returns none, while
the formula yields 2 for the schedule with trade fee 8/1 and amount 1. -/
theorem claim_C1_counterexample :
    Fees.normalized_trade_fee ⟨1, 2, 3, 4, 8, 1, 7, 8⟩ 65 1 = none ∧
    1 * (8 * 65 / (4 * (65 - 1))) / 1 = 2 := by
  decide

/-- C1 (amended): for every fee schedule with a 64-bit trade-fee numerator
and a nonzero trade-fee denominator, every `n_coins` between 2 and 64
(so that the 8-bit product `(n_coins - 1) * 4` does not overflow), and
every amount whose resulting fee quotient fits in 64 bits,
`normalized_trade_fee` first computes the adjusted numerator
`floor(tradeNum * n_coins / (4 * (n_coins - 1)))` with floor division and
then applies it to the amount:
`floor(amount * adjusted / tradeDen)`.  The formula is general in the
`n_coins` parameter throughout this range, not hard-coded for two assets. -/
theorem claim_C1_normalized_trade_fee (f : Fees) (n amount : Nat)
    (htd : f.trade_fee_denominator ≠ 0)
    (htn : f.trade_fee_numerator < U64_SIZE)
    (hn2 : 2 ≤ n) (hn64 : n ≤ 64)
    (hfit : amount * (f.trade_fee_numerator * n / (4 * (n - 1))) /
        f.trade_fee_denominator < U64_SIZE) :
    f.normalized_trade_fee n amount =
      some (amount * (f.trade_fee_numerator * n / (4 * (n - 1))) /
        f.trade_fee_denominator) := by
  have h1 : checked_sub n 1 = some (n - 1) := by
    simp only [checked_sub, if_pos (by omega : 1 ≤ n)]
  have h2 : checked_mul_u8 (n - 1) 4 = some ((n - 1) * 4) := by
    simp only [checked_mul_u8, U8_SIZE, if_pos (by omega : (n - 1) * 4 < 256)]
  have hcomm : (n - 1) * 4 = 4 * (n - 1) := Nat.mul_comm _ _
  have hq : f.trade_fee_numerator * n / (4 * (n - 1)) < U64_SIZE := by
    have hle : f.trade_fee_numerator * n ≤
        f.trade_fee_numerator * (4 * (n - 1)) :=
      Nat.mul_le_mul_left _ (by omega)
    calc f.trade_fee_numerator * n / (4 * (n - 1)) ≤
          f.trade_fee_numerator * (4 * (n - 1)) / (4 * (n - 1)) :=
            Nat.div_le_div_right hle
      _ = f.trade_fee_numerator := Nat.mul_div_cancel _ (by omega)
      _ < U64_SIZE := htn
  have h3 : mul_div f.trade_fee_numerator n ((n - 1) * 4) =
      some (f.trade_fee_numerator * n / (4 * (n - 1))) := by
    rw [hcomm]
    simp only [mul_div, if_neg (by omega : ¬ 4 * (n - 1) = 0), if_pos hq]
  have h4 : mul_div amount
      (f.trade_fee_numerator * n / (4 * (n - 1))) f.trade_fee_denominator =
      some (amount * (f.trade_fee_numerator * n / (4 * (n - 1))) /
        f.trade_fee_denominator) := by
    simp only [mul_div, if_neg htd, if_pos hfit]
  simp only [Fees.normalized_trade_fee, h1, h2, h3, h4, Option.bind_some,
    bind, Option.bind]

theorem claim_C1_witness :
    (6 : Nat) ≠ 0 ∧ (5 : Nat) < U64_SIZE ∧ (2 : Nat) ≤ 2 ∧ (2 : Nat) ≤ 64 ∧
    1000000000 * (5 * 2 / (4 * (2 - 1))) / 6 < U64_SIZE ∧
    Fees.normalized_trade_fee ⟨1, 2, 3, 4, 5, 6, 7, 8⟩ 2 1000000000 =
      some (1000000000 * (5 * 2 / (4 * (2 - 1))) / 6) :=
  ⟨by decide, by decide, by decide, by decide, by decide,
    claim_C1_normalized_trade_fee ⟨1, 2, 3, 4, 5, 6, 7, 8⟩ 2 1000000000
      (by decide) (by decide) (by decide) (by decide) (by decide)⟩

/-- C2: for the fee schedule with (admin-trade, admin-withdraw, trade,
withdraw) numerator/denominator pairs (1/2, 3/4, 5/6, 7/8), the trade fee
on 1,000,000,000 is 833,333,333 (the floor of 1e9 times 5/6) and the admin
trade fee on 833,333,333 is 416,666,666 (the floor of its half). -/
theorem claim_C2_fee_example :
    Fees.trade_fee ⟨1, 2, 3, 4, 5, 6, 7, 8⟩ 1000000000 = some 833333333 ∧
    Fees.admin_trade_fee ⟨1, 2, 3, 4, 5, 6, 7, 8⟩ 833333333 =
      some 416666666 := by
  decide

/-- C3: for every well-formed fee schedule (all eight fields 64-bit),
`pack_into_slice` produces exactly 64 bytes, each below 256, laid out as
the eight fields little-endian in declaration order
(admin-trade num/den, admin-withdraw num/den, trade num/den, withdraw
num/den), and `unpack_from_slice` of that output returns the original
schedule (serialize/deserialize round trip). -/
theorem claim_C3_pack_roundtrip (f : Fees) (h : f.wf) :
    (f.pack_into_slice).length = 64 ∧
    (∀ b ∈ f.pack_into_slice, b < 256) ∧
    f.pack_into_slice =
      toLeBytes8 f.admin_trade_fee_numerator ++
      toLeBytes8 f.admin_trade_fee_denominator ++
      toLeBytes8 f.admin_withdraw_fee_numerator ++
      toLeBytes8 f.admin_withdraw_fee_denominator ++
      toLeBytes8 f.trade_fee_numerator ++
      toLeBytes8 f.trade_fee_denominator ++
      toLeBytes8 f.withdraw_fee_numerator ++
      toLeBytes8 f.withdraw_fee_denominator ∧
    Fees.unpack_from_slice f.pack_into_slice = some f := by
  obtain ⟨a1, a2, a3, a4, a5, a6, a7, a8⟩ := f
  obtain ⟨h1, h2, h3, h4, h5, h6, h7, h8⟩ := h
  have hlen : (Fees.pack_into_slice ⟨a1, a2, a3, a4, a5, a6, a7, a8⟩).length
      = 64 := by
    simp [Fees.pack_into_slice, toLeBytes8]
  refine ⟨hlen, ?_, rfl, ?_⟩
  · intro b hb
    simp only [Fees.pack_into_slice, List.mem_append] at hb
    rcases hb with ((((((hc | hc) | hc) | hc) | hc) | hc) | hc) | hc <;>
      exact toLeBytes8_mem_lt _ _ hc
  · rw [Fees.unpack_from_slice, if_pos (by omega)]
    simp only [Fees.pack_into_slice, List.append_assoc,
      toLeBytes8_append_take, toLeBytes8_append_drop, toLeBytes8_take]
    rw [fromLeBytes_toLeBytes8 a1 h1, fromLeBytes_toLeBytes8 a2 h2,
      fromLeBytes_toLeBytes8 a3 h3, fromLeBytes_toLeBytes8 a4 h4,
      fromLeBytes_toLeBytes8 a5 h5, fromLeBytes_toLeBytes8 a6 h6,
      fromLeBytes_toLeBytes8 a7 h7, fromLeBytes_toLeBytes8 a8 h8]

theorem claim_C3_witness :
    Fees.wf ⟨1, 2, 3, 4, 5, 6, 7, 8⟩ ∧
    Fees.unpack_from_slice (Fees.pack_into_slice ⟨1, 2, 3, 4, 5, 6, 7, 8⟩) =
      some ⟨1, 2, 3, 4, 5, 6, 7, 8⟩ :=
  ⟨by decide,
    (claim_C3_pack_roundtrip ⟨1, 2, 3, 4, 5, 6, 7, 8⟩ (by decide)).2.2.2⟩

/-- C4: caller-side fee composition of the single-asset withdrawal in
`process_withdraw_one`.  Writing `amount := dy + dy_fee` for the gross
solver amount, of which `dy_fee` is the trade-fee portion and `dy` the
net-of-trade-fee part (the pair returned by the solver per the spec
model): whenever the fee pipeline succeeds, the flat withdraw fee `wfee`
is `withdraw_fee` applied to the amount net of the trade-fee portion, the
admin fee retained separately is
`admin_trade_fee dy_fee + admin_withdraw_fee wfee`, and the net amount
delivered to the user is the amount minus the trade-fee portion minus the
withdraw fee. -/
theorem claim_C4_withdraw_one_fee_composition
    (pool_token_amount minimum_token_amount : Nat) (fees : Fees)
    (dy dy_fee wfee admin_t admin_w : Nat)
    (hpool : pool_token_amount ≠ 0)
    (hwf : fees.withdraw_fee dy = some wfee)
    (hsub : wfee ≤ dy)
    (hmin : minimum_token_amount ≤ dy - wfee)
    (hat : fees.admin_trade_fee dy_fee = some admin_t)
    (haw : fees.admin_withdraw_fee wfee = some admin_w)
    (hadd : admin_t + admin_w < U64_SIZE) :
    fees.withdraw_fee (dy + dy_fee - dy_fee) = some wfee ∧
    process_withdraw_one pool_token_amount minimum_token_amount true
        ⟨false, fees⟩ true (some (dy, dy_fee)) =
      (Except.ok (),
        [Eff.transfer (dy + dy_fee - dy_fee - wfee),
         Eff.transfer (admin_t + admin_w),
         Eff.burn pool_token_amount]) := by
  have hnet : dy + dy_fee - dy_fee = dy := by omega
  rw [hnet]
  refine ⟨hwf, ?_⟩
  simp only [process_withdraw_one, if_neg hpool, hwf]
  simp only [checked_sub, if_pos hsub, checked_add_u64, if_pos hadd, hat,
    haw, if_neg (by omega : ¬ dy - wfee < minimum_token_amount)]
  simp

theorem claim_C4_witness :
    (10 : Nat) ≠ 0 ∧
    Fees.withdraw_fee ⟨1, 2, 3, 4, 5, 6, 7, 8⟩ 800 = some 700 ∧
    (700 : Nat) ≤ 800 ∧ (0 : Nat) ≤ 800 - 700 ∧
    Fees.admin_trade_fee ⟨1, 2, 3, 4, 5, 6, 7, 8⟩ 80 = some 40 ∧
    Fees.admin_withdraw_fee ⟨1, 2, 3, 4, 5, 6, 7, 8⟩ 700 = some 525 ∧
    40 + 525 < U64_SIZE ∧
    process_withdraw_one 10 0 true ⟨false, ⟨1, 2, 3, 4, 5, 6, 7, 8⟩⟩ true
        (some (800, 80)) =
      (Except.ok (),
        [Eff.transfer (800 + 80 - 80 - 700), Eff.transfer (40 + 525),
         Eff.burn 10]) :=
  ⟨by decide, by decide, by decide, by decide, by decide, by decide,
    by decide,
    (claim_C4_withdraw_one_fee_composition 10 0 ⟨1, 2, 3, 4, 5, 6, 7, 8⟩
      800 80 700 40 525 (by decide) (by decide) (by decide) (by decide)
      (by decide) (by decide) (by decide)).2⟩

/-- C5: for a swap request with a nonzero input amount (and the account
checks passing on an unpaused pool), a missing `swap_to` quote fails with
`CalculationFailure` and no effects, a quote whose `amount_swapped` is
below the caller minimum fails with the distinct `ExceededSlippage` and no
effects, and the two error values are different. -/
theorem claim_C5_swap_error_taxonomy
    (amount_in minimum_amount_out : Nat) (fees : Fees) (r : SwapResult)
    (h0 : amount_in ≠ 0) :
    process_swap amount_in minimum_amount_out true ⟨false, fees⟩ true none =
      (Except.error SwapError.CalculationFailure, []) ∧
    (r.amount_swapped < minimum_amount_out →
      process_swap amount_in minimum_amount_out true ⟨false, fees⟩ true
          (some r) =
        (Except.error SwapError.ExceededSlippage, [])) ∧
    SwapError.CalculationFailure ≠ SwapError.ExceededSlippage := by
  refine ⟨?_, ?_, by decide⟩
  · simp [process_swap, h0]
  · intro hlt
    simp [process_swap, h0, hlt]

theorem claim_C5_witness :
    (5 : Nat) ≠ 0 ∧
    process_swap 5 0 true ⟨false, ⟨1, 2, 3, 4, 5, 6, 7, 8⟩⟩ true none =
      (Except.error SwapError.CalculationFailure, []) ∧
    process_swap 5 9 true ⟨false, ⟨1, 2, 3, 4, 5, 6, 7, 8⟩⟩ true
        (some ⟨100, 100, 3, 1, 1⟩) =
      (Except.error SwapError.ExceededSlippage, []) :=
  ⟨by decide,
    (claim_C5_swap_error_taxonomy 5 0 ⟨1, 2, 3, 4, 5, 6, 7, 8⟩
      ⟨100, 100, 3, 1, 1⟩ (by decide)).1,
    (claim_C5_swap_error_taxonomy 5 9 ⟨1, 2, 3, 4, 5, 6, 7, 8⟩
      ⟨100, 100, 3, 1, 1⟩ (by decide)).2.1 (by decide)⟩

/-- C6: pool initialization mints exactly D0 to the bootstrapper.  With
nonzero initial reserves and passing checks, `process_initialize` builds
`StableSwap::new(amp, amp, ZERO_TS, ZERO_TS, ZERO_TS)` (initial equals
target, no ramp), whose effective amplification coefficient is exactly the
supplied `amp_factor`, and the single minted LP amount is the
`compute_d` invariant of the two reserves at that coefficient, narrowed to
64 bits, with no fee applied. -/
theorem claim_C6_initialize_mints_d0
    (core : Nat → Nat → Nat → Option Nat) (amp_factor a b d : Nat)
    (ha : a ≠ 0) (hb : b ≠ 0)
    (hcore : core amp_factor a b = some d) (hd : d < U64_SIZE) :
    (StableSwap.new amp_factor amp_factor ZERO_TS ZERO_TS
        ZERO_TS).compute_amp_factor = some amp_factor ∧
    (StableSwap.new amp_factor amp_factor ZERO_TS ZERO_TS
        ZERO_TS).compute_d core a b = some d ∧
    process_init core amp_factor true true a b =
      (Except.ok (), [Eff.mintTo d]) := by
  have hamp : (StableSwap.new amp_factor amp_factor ZERO_TS ZERO_TS
      ZERO_TS).compute_amp_factor = some amp_factor := by
    simp [StableSwap.new, StableSwap.compute_amp_factor, ZERO_TS]
  have hcd : (StableSwap.new amp_factor amp_factor ZERO_TS ZERO_TS
      ZERO_TS).compute_d core a b = some d := by
    rw [StableSwap.compute_d, hamp, Option.some_bind, hcore]
  refine ⟨hamp, hcd, ?_⟩
  simp only [process_init, if_neg hb, if_neg ha, hcd, tryToU64,
    if_pos hd]
  simp

theorem claim_C6_witness :
    (2 : Nat) ≠ 0 ∧ (3 : Nat) ≠ 0 ∧
    (fun amp x y => some (amp + x + y) : Nat → Nat → Nat → Option Nat)
        1 2 3 = some 6 ∧
    (6 : Nat) < U64_SIZE ∧
    process_init (fun amp x y => some (amp + x + y)) 1 true true 2 3 =
      (Except.ok (), [Eff.mintTo 6]) :=
  ⟨by decide, by decide, rfl, by decide,
    (claim_C6_initialize_mints_d0 (fun amp x y => some (amp + x + y))
      1 2 3 6 (by decide) (by decide) rfl (by decide)).2.2⟩

theorem process_swap_frame (amount_in minimum_amount_out : Nat) (d : Bool)
    (info : SwapInfo) (k : Bool) (q : Option SwapResult) :
    (process_swap amount_in minimum_amount_out d info k q).2 = [] ∨
    (process_swap amount_in minimum_amount_out d info k q).1 =
      Except.ok () := by
  unfold process_swap
  split
  · simp
  split
  · simp
  split
  · simp
  split
  · simp
  split
  · simp
  split <;> simp

theorem process_deposit_frame (token_a_amount token_b_amount min_mint : Nat)
    (info : SwapInfo) (k : Bool) (m : Option Nat) :
    (process_deposit token_a_amount token_b_amount min_mint info k m).2 = [] ∨
    (process_deposit token_a_amount token_b_amount min_mint info k m).1 =
      Except.ok () := by
  unfold process_deposit
  split
  · simp
  split
  · simp
  split
  · simp
  split
  · simp
  split <;> simp

theorem process_withdraw_frame
    (pool_token_amount min_a min_b : Nat) (info : SwapInfo) (k : Bool)
    (s : Nat) (qa qb : Option (Nat × Nat × Nat)) :
    (process_withdraw pool_token_amount min_a min_b info k s qa qb).2 = [] ∨
    (process_withdraw pool_token_amount min_a min_b info k s qa qb).1 =
      Except.ok () := by
  unfold process_withdraw
  split
  · simp
  split
  · simp
  split
  · simp
  split
  · simp
  split <;> simp

theorem process_withdraw_one_frame
    (pool_token_amount min_one : Nat) (d : Bool) (info : SwapInfo)
    (k : Bool) (q : Option (Nat × Nat)) :
    (process_withdraw_one pool_token_amount min_one d info k q).2 = [] ∨
    (process_withdraw_one pool_token_amount min_one d info k q).1 =
      Except.ok () := by
  unfold process_withdraw_one
  split
  · simp
  split
  · simp
  split
  · simp
  split
  · simp
  split
  · simp
  split
  · simp
  split
  · simp
  split
  · simp
  split
  · simp
  split
  · simp
  split <;> simp

theorem frame_of_error {p : Except SwapError Unit × List Eff}
    (hframe : p.2 = [] ∨ p.1 = Except.ok ()) (e : SwapError)
    (h : p.1 = Except.error e) : p.2 = [] := by
  rcases hframe with he | ho
  · exact he
  · rw [ho] at h
    exact Except.noConfusion h

/-- C7: a failing call moves no value.  For each of the four operations,
if the returned result is the calculation-failure or slippage-exceeded
error, then the list of token-program effects (transfers, mints, burns)
performed by the call is empty: the quote computation and the slippage
check complete before any value movement. -/
theorem claim_C7_errors_move_no_value
    (amount_in minimum_amount_out token_a_amount token_b_amount min_mint
      pool_token_amount min_a min_b s pool_one min_one : Nat)
    (d1 d4 k1 k2 k3 k4 : Bool) (info1 info2 info3 info4 : SwapInfo)
    (q1 : Option SwapResult) (m2 : Option Nat)
    (qa qb : Option (Nat × Nat × Nat)) (q4 : Option (Nat × Nat)) :
    (((process_swap amount_in minimum_amount_out d1 info1 k1 q1).1 =
          Except.error SwapError.CalculationFailure ∨
        (process_swap amount_in minimum_amount_out d1 info1 k1 q1).1 =
          Except.error SwapError.ExceededSlippage) →
      (process_swap amount_in minimum_amount_out d1 info1 k1 q1).2 = []) ∧
    (((process_deposit token_a_amount token_b_amount min_mint info2 k2
            m2).1 = Except.error SwapError.CalculationFailure ∨
        (process_deposit token_a_amount token_b_amount min_mint info2 k2
            m2).1 = Except.error SwapError.ExceededSlippage) →
      (process_deposit token_a_amount token_b_amount min_mint info2 k2
          m2).2 = []) ∧
    (((process_withdraw pool_token_amount min_a min_b info3 k3 s qa qb).1 =
          Except.error SwapError.CalculationFailure ∨
        (process_withdraw pool_token_amount min_a min_b info3 k3 s qa
            qb).1 = Except.error SwapError.ExceededSlippage) →
      (process_withdraw pool_token_amount min_a min_b info3 k3 s qa qb).2 =
        []) ∧
    (((process_withdraw_one pool_one min_one d4 info4 k4 q4).1 =
          Except.error SwapError.CalculationFailure ∨
        (process_withdraw_one pool_one min_one d4 info4 k4 q4).1 =
          Except.error SwapError.ExceededSlippage) →
      (process_withdraw_one pool_one min_one d4 info4 k4 q4).2 = []) := by
  refine ⟨fun h => ?_, fun h => ?_, fun h => ?_, fun h => ?_⟩ <;>
    rcases h with h | h
  · exact frame_of_error (process_swap_frame _ _ _ _ _ _) _ h
  · exact frame_of_error (process_swap_frame _ _ _ _ _ _) _ h
  · exact frame_of_error (process_deposit_frame _ _ _ _ _ _) _ h
  · exact frame_of_error (process_deposit_frame _ _ _ _ _ _) _ h
  · exact frame_of_error (process_withdraw_frame _ _ _ _ _ _ _ _) _ h
  · exact frame_of_error (process_withdraw_frame _ _ _ _ _ _ _ _) _ h
  · exact frame_of_error (process_withdraw_one_frame _ _ _ _ _ _) _ h
  · exact frame_of_error (process_withdraw_one_frame _ _ _ _ _ _) _ h

theorem claim_C7_witness :
    ((process_swap 5 0 true ⟨false, ⟨1, 2, 3, 4, 5, 6, 7, 8⟩⟩ true
          none).1 = Except.error SwapError.CalculationFailure ∨
      (process_swap 5 0 true ⟨false, ⟨1, 2, 3, 4, 5, 6, 7, 8⟩⟩ true
          none).1 = Except.error SwapError.ExceededSlippage) ∧
    (process_swap 5 0 true ⟨false, ⟨1, 2, 3, 4, 5, 6, 7, 8⟩⟩ true
        none).2 = [] :=
  ⟨Or.inl rfl,
    (claim_C7_errors_move_no_value 5 0 0 0 0 0 0 0 0 0 0 true true true
        true true true ⟨false, ⟨1, 2, 3, 4, 5, 6, 7, 8⟩⟩
        ⟨false, ⟨1, 2, 3, 4, 5, 6, 7, 8⟩⟩
        ⟨false, ⟨1, 2, 3, 4, 5, 6, 7, 8⟩⟩
        ⟨false, ⟨1, 2, 3, 4, 5, 6, 7, 8⟩⟩ none none none none
        none).1 (Or.inl rfl)⟩

/-- C9: when the pool is paused, `process_swap`, `process_deposit` and
`process_withdraw_one` each fail with `IsPaused` before computing any
quote and before any effect (the quote argument is arbitrary and no
effect is recorded), while `process_withdraw` performs no pause check:
its result is identical on a paused and an unpaused pool, and on a paused
pool with otherwise valid inputs it completes the withdrawal. -/
theorem claim_C9_pause_checks
    (amount_in minimum_amount_out token_a_amount token_b_amount min_mint
      pool_token_amount min_a min_b s min_one pool_one
      qa1 qa2 qa3 qb1 qb2 qb3 : Nat)
    (fees : Fees) (k1 k2 k3 k4 : Bool) (q1 : Option SwapResult)
    (m2 : Option Nat) (qa qb : Option (Nat × Nat × Nat))
    (q4 : Option (Nat × Nat))
    (h0 : amount_in ≠ 0)
    (hd : ¬(token_a_amount = 0 ∧ token_b_amount = 0))
    (hw : pool_one ≠ 0) (hp : pool_token_amount ≠ 0) (hs : s ≠ 0)
    (hma : min_a ≤ qa1) (hmb : min_b ≤ qb1) :
    process_swap amount_in minimum_amount_out true ⟨true, fees⟩ k1 q1 =
      (Except.error SwapError.IsPaused, []) ∧
    process_deposit token_a_amount token_b_amount min_mint ⟨true, fees⟩
        k2 m2 =
      (Except.error SwapError.IsPaused, []) ∧
    process_withdraw_one pool_one min_one true ⟨true, fees⟩ k4 q4 =
      (Except.error SwapError.IsPaused, []) ∧
    process_withdraw pool_token_amount min_a min_b ⟨true, fees⟩ k3 s qa
        qb =
      process_withdraw pool_token_amount min_a min_b ⟨false, fees⟩ k3 s qa
        qb ∧
    process_withdraw pool_token_amount min_a min_b ⟨true, fees⟩ true s
        (some (qa1, qa2, qa3)) (some (qb1, qb2, qb3)) =
      (Except.ok (),
        [Eff.transfer qa1, Eff.transfer qa3, Eff.transfer qb1,
         Eff.transfer qb3, Eff.burn pool_token_amount]) := by
  refine ⟨?_, ?_, ?_, rfl, ?_⟩
  · simp [process_swap, h0]
  · simp [process_deposit, hd]
  · simp [process_withdraw_one, hw]
  · simp only [process_withdraw, if_neg hp, if_neg hs,
      check_can_withdraw_token, if_neg (by omega : ¬ qa1 < min_a),
      if_neg (by omega : ¬ qb1 < min_b)]
    simp

theorem claim_C9_witness :
    (5 : Nat) ≠ 0 ∧ ¬((3 : Nat) = 0 ∧ (4 : Nat) = 0) ∧ (7 : Nat) ≠ 0 ∧
    (9 : Nat) ≠ 0 ∧ (100 : Nat) ≠ 0 ∧ (1 : Nat) ≤ 10 ∧ (2 : Nat) ≤ 20 ∧
    process_swap 5 0 true ⟨true, ⟨1, 2, 3, 4, 5, 6, 7, 8⟩⟩ true none =
      (Except.error SwapError.IsPaused, []) ∧
    process_withdraw 9 1 2 ⟨true, ⟨1, 2, 3, 4, 5, 6, 7, 8⟩⟩ true 100
        (some (10, 11, 12)) (some (20, 21, 22)) =
      (Except.ok (),
        [Eff.transfer 10, Eff.transfer 12, Eff.transfer 20,
         Eff.transfer 22, Eff.burn 9]) := by
  have h := claim_C9_pause_checks 5 0 3 4 0 9 1 2 100 0 7 10 11 12 20 21
    22 ⟨1, 2, 3, 4, 5, 6, 7, 8⟩ true true true true none none none none
    none (by decide) (by decide) (by decide) (by decide) (by decide)
    (by decide) (by decide)
  exact ⟨by decide, by decide, by decide, by decide, by decide, by decide,
    by decide, h.1, h.2.2.2.2⟩

/-- C10: a zero-sized request is a successful no-op.  `process_swap` with
zero input, `process_deposit` with both amounts zero, `process_withdraw`
with zero pool-token amount and `process_withdraw_one` with zero
pool-token amount each return success with no effects, whatever the rest
of the inputs (pause flag, key checks and quotes included): the result is
independent of every account-derived argument. -/
theorem claim_C10_zero_request_noop
    (minimum_amount_out min_mint min_a min_b s min_one : Nat)
    (d1 d4 k1 k2 k3 k4 : Bool) (info1 info2 info3 info4 : SwapInfo)
    (q1 : Option SwapResult) (m2 : Option Nat)
    (qa qb : Option (Nat × Nat × Nat)) (q4 : Option (Nat × Nat)) :
    process_swap 0 minimum_amount_out d1 info1 k1 q1 =
      (Except.ok (), []) ∧
    process_deposit 0 0 min_mint info2 k2 m2 = (Except.ok (), []) ∧
    process_withdraw 0 min_a min_b info3 k3 s qa qb =
      (Except.ok (), []) ∧
    process_withdraw_one 0 min_one d4 info4 k4 q4 =
      (Except.ok (), []) := by
  exact ⟨by simp [process_swap], by simp [process_deposit],
    by simp [process_withdraw], by simp [process_withdraw_one]⟩

/-- C8: the fee computations are total and fail softly on zero
denominators.  Each of `trade_fee`, `withdraw_fee`, `admin_trade_fee` and
`admin_withdraw_fee` returns none when its denominator is zero, and
`normalized_trade_fee` returns none both when `n_coins` is at most 1 (so
the derived denominator `4 * (n_coins - 1)` is zero or the 8-bit
subtraction fails) and when the trade-fee denominator is zero; every
function is a total Lean function, so no input can panic or crash. -/
theorem claim_C8_zero_denominator_totality (f : Fees) (amount n : Nat) :
    (f.trade_fee_denominator = 0 → f.trade_fee amount = none) ∧
    (f.withdraw_fee_denominator = 0 → f.withdraw_fee amount = none) ∧
    (f.admin_trade_fee_denominator = 0 → f.admin_trade_fee amount = none) ∧
    (f.admin_withdraw_fee_denominator = 0 →
      f.admin_withdraw_fee amount = none) ∧
    (n ≤ 1 → f.normalized_trade_fee n amount = none) ∧
    (f.trade_fee_denominator = 0 →
      f.normalized_trade_fee n amount = none) := by
  refine ⟨fun h => ?_, fun h => ?_, fun h => ?_, fun h => ?_,
    fun h => ?_, fun h => ?_⟩
  · simp [Fees.trade_fee, mul_div_imbalanced, h]
  · simp [Fees.withdraw_fee, mul_div_imbalanced, h]
  · simp [Fees.admin_trade_fee, mul_div_imbalanced, h]
  · simp [Fees.admin_withdraw_fee, mul_div_imbalanced, h]
  · have hn : n = 0 ∨ n = 1 := by omega
    rcases hn with rfl | rfl
    · simp [Fees.normalized_trade_fee, checked_sub, bind, Option.bind]
    · simp [Fees.normalized_trade_fee, checked_sub, checked_mul_u8,
        mul_div, U8_SIZE, bind, Option.bind]
  · unfold Fees.normalized_trade_fee
    cases h1 : checked_sub n 1 with
    | none => simp [h1, bind, Option.bind]
    | some sdiff =>
      cases h2 : checked_mul_u8 sdiff 4 with
      | none => simp [h1, h2, bind, Option.bind]
      | some m =>
        cases h3 : mul_div f.trade_fee_numerator n m with
        | none => simp [h1, h2, h3, bind, Option.bind]
        | some adj =>
          simp only [h1, h2, h3, bind, Option.bind]
          simp [mul_div, h]

theorem claim_C8_witness :
    Fees.trade_fee ⟨1, 0, 3, 0, 5, 0, 7, 0⟩ 5 = none ∧
    Fees.withdraw_fee ⟨1, 0, 3, 0, 5, 0, 7, 0⟩ 5 = none ∧
    Fees.admin_trade_fee ⟨1, 0, 3, 0, 5, 0, 7, 0⟩ 5 = none ∧
    Fees.admin_withdraw_fee ⟨1, 0, 3, 0, 5, 0, 7, 0⟩ 5 = none ∧
    Fees.normalized_trade_fee ⟨1, 0, 3, 0, 5, 0, 7, 0⟩ 1 5 = none ∧
    Fees.normalized_trade_fee ⟨1, 0, 3, 0, 5, 0, 7, 0⟩ 2 5 = none :=
  ⟨(claim_C8_zero_denominator_totality ⟨1, 0, 3, 0, 5, 0, 7, 0⟩ 5 1).1 rfl,
    (claim_C8_zero_denominator_totality ⟨1, 0, 3, 0, 5, 0, 7, 0⟩ 5
      1).2.1 rfl,
    (claim_C8_zero_denominator_totality ⟨1, 0, 3, 0, 5, 0, 7, 0⟩ 5
      1).2.2.1 rfl,
    (claim_C8_zero_denominator_totality ⟨1, 0, 3, 0, 5, 0, 7, 0⟩ 5
      1).2.2.2.1 rfl,
    (claim_C8_zero_denominator_totality ⟨1, 0, 3, 0, 5, 0, 7, 0⟩ 5
      1).2.2.2.2.1 (by decide),
    (claim_C8_zero_denominator_totality ⟨1, 0, 3, 0, 5, 0, 7, 0⟩ 5
      2).2.2.2.2.2 rfl⟩

end StableSwapSpec
